import Mathlib

/-!
Shallow embedding of `src/compress_images_50.py` (Pillow-based 50% image
downscaler).  The imaging library's primitives (decode, EXIF transpose,
resize, encode) are modelled on an abstract `Image` record carrying the
attributes the script inspects (width, height, color mode, animation flag,
EXIF orientation).  Filesystem effects of one transformer call are confined
to the source path and one temp path, modelled by `FS`.  Each fallible
library / OS call is given a success flag in `Env`, so a single run of the
transformer is a total function `Candidate → TResult`; the Python
`try/except` at the bottom of `compress_image_50_percent` corresponds to
the error leaves of the definition.  The order of the `Event` trace mirrors
the line order of the Python function.
-/

namespace CompressImages

/-- Pillow color modes the script can meet (`im.mode`). -/
inductive Mode where
  | RGB
  | RGBA
  | P
  | L
  | LA
  | CMYK
deriving DecidableEq

/-- Decoded image buffer: the attributes of a PIL image that
`compress_image_50_percent` reads. -/
structure Image where
  width : Nat
  height : Nat
  mode : Mode
  animated : Bool
  exifOrient : Nat
deriving DecidableEq

/-- Model of `ImageOps.exif_transpose`: orientations 5..8 transpose the pixel grid
(width and height swap); afterwards the orientation tag is consumed. -/
def exifTranspose (im : Image) : Image :=
  if 5 ≤ im.exifOrient ∧ im.exifOrient ≤ 8 then
    { im with width := im.height, height := im.width, exifOrient := 1 }
  else
    { im with exifOrient := 1 }

/-- Model of `im.resize` with the LANCZOS filter: new buffer with the
given dimensions, same mode, same (ir)relevant animation flag. -/
def resizeImage (im : Image) (nw nh : Nat) : Image :=
  { im with width := nw, height := nh }

/-- Model of the `convert` call that produces an RGB buffer. -/
def convertRGB (im : Image) : Image :=
  { im with mode := Mode.RGB }

/-- Extension set `SUPPORTED_EXTS` from the script (lower-case, with dot). -/
def SUPPORTED_EXTS : List String :=
  [".jpg", ".jpeg", ".png", ".webp", ".tif", ".tiff", ".bmp", ".gif"]

/-- Format-specific save options (`save_params` in the script). -/
structure SaveParams where
  optimize : Bool := false
  quality : Option Nat := none
  progressive : Bool := false
  method : Option Nat := none
  compression : Option String := none
deriving DecidableEq

/-- The `if ext in ...` chain building `save_params`. -/
def saveParamsFor (ext : String) : SaveParams :=
  if ext = ".jpg" ∨ ext = ".jpeg" then
    { optimize := true, quality := some 85, progressive := true }
  else if ext = ".png" then
    { optimize := true }
  else if ext = ".webp" then
    { quality := some 80, method := some 4 }
  else if ext = ".tif" ∨ ext = ".tiff" then
    { compression := some "tiff_lzw" }
  else
    { }

/-- Content of a file on disk, as far as the transformer can distinguish it:
the untouched original bytes, the empty placeholder `NamedTemporaryFile`
leaves behind, a truncated/partial write from a failed `save`, or a complete
successful encode of an image with given extension and parameters. -/
inductive FileData where
  | orig : FileData
  | empty : FileData
  | truncated : FileData
  | encoded : Image → String → SaveParams → FileData
deriving DecidableEq

/-- The slice of the filesystem one transformer call can touch: the source
path and the (at most one) sibling temp path. -/
structure FS where
  src : FileData
  tmp : Option FileData
deriving DecidableEq

/-- State when the transformer starts: original bytes at `src`, no temp. -/
def initFS : FS := { src := FileData.orig, tmp := none }

/-- Success flags for each fallible library / OS call the function makes. -/
structure Env where
  decodeOk : Bool
  resizeOk : Bool
  mktempOk : Bool
  unlinkOk : Bool
  saveOk : Bool
  replaceOk : Bool
deriving DecidableEq

/-- The environment in which every call succeeds. -/
def Env.allOk : Env :=
  { decodeOk := true, resizeOk := true, mktempOk := true,
    unlinkOk := true, saveOk := true, replaceOk := true }

/-- One candidate file fed to the transformer: its path, its lower-cased
suffix, the image its bytes decode to, and the ambient failure pattern. -/
structure Candidate where
  path : String
  ext : String
  img : Image
  env : Env
deriving DecidableEq

/-- Observable steps of one transformer call, in the order the Python lines
execute them. -/
inductive Event where
  | decode
  | sizeSkip
  | resize
  | createTemp
  | animSkip
  | convertRGB
  | save
  | replace
  | errorCaught
deriving DecidableEq

/-- Result of one transformer call: final filesystem slice, stderr lines
emitted, and the event trace. -/
structure TResult where
  fs : FS
  stderrLines : List String
  trace : List Event
deriving DecidableEq

/-- Stderr line the except clause prints: the source path and the error. -/
def errLine (path msg : String) : String :=
  "Error processing " ++ path ++ ": " ++ msg

/-- Stderr line of the animated-GIF guard, naming the source path. -/
def skipLine (path : String) : String :=
  "Skipping animated GIF: " ++ path

/-- Modes the Pillow JPEG encoder accepts without conversion; for the others
(RGBA, P, LA) the `save` call raises an OSError about the mode. -/
def jpegCanEncode : Mode → Bool
  | Mode.RGB => true
  | Mode.L => true
  | Mode.CMYK => true
  | _ => false

/-- Whether `im.save(tmp_path)` can encode mode `m` for extension `ext`. -/
def canEncode (ext : String) (m : Mode) : Bool :=
  if ext = ".jpg" ∨ ext = ".jpeg" then jpegCanEncode m else true

/-- The mode-conversion step (lines 85-87): convert to RGB when saving as
JPEG from a non-RGB buffer, otherwise keep the buffer. -/
def jpegAdjust (ext : String) (im : Image) : Image :=
  if (ext = ".jpg" ∨ ext = ".jpeg") ∧ ¬ im.mode = Mode.RGB then convertRGB im else im

/-- Trace contribution of the mode-conversion step. -/
def convEvents (ext : String) (im : Image) : List Event :=
  if (ext = ".jpg" ∨ ext = ".jpeg") ∧ ¬ im.mode = Mode.RGB then [Event.convertRGB] else []

/-- Condition `new_w == w and new_h == h` (line 41): halving has no effect. -/
def sizeKeep (im : Image) : Prop :=
  max 1 (im.width / 2) = im.width ∧ max 1 (im.height / 2) = im.height

instance (im : Image) : Decidable (sizeKeep im) := by
  unfold sizeKeep; infer_instance

/-- Transformer `compress_image_50_percent` (lines 26-95), branch for branch:
decode + `exif_transpose`, size computation and tiny-skip, resize, temp-file
creation, animated-GIF guard with best-effort unlink, mode conversion,
save to temp, atomic replace; any raise inside the `try` lands in the
`except` clause, which prints one line to stderr and leaves the filesystem
as the raise left it. -/
def compress_image_50_percent (c : Candidate) : TResult :=
  if c.env.decodeOk = false then
    ⟨initFS, [errLine c.path "cannot identify image file"], [Event.errorCaught]⟩
  else
    let im := exifTranspose c.img
    if sizeKeep im then
      ⟨initFS, [], [Event.decode, Event.sizeSkip]⟩
    else if c.env.resizeOk = false then
      ⟨initFS, [errLine c.path "resize failed"], [Event.decode, Event.errorCaught]⟩
    else
      let imr := resizeImage im (max 1 (im.width / 2)) (max 1 (im.height / 2))
      if c.env.mktempOk = false then
        ⟨initFS, [errLine c.path "could not create temporary file"],
          [Event.decode, Event.resize, Event.errorCaught]⟩
      else if c.ext = ".gif" ∧ im.animated = true then
        ⟨⟨FileData.orig, if c.env.unlinkOk then none else some FileData.empty⟩,
          [skipLine c.path],
          [Event.decode, Event.resize, Event.createTemp, Event.animSkip]⟩
      else
        let im2 := jpegAdjust c.ext imr
        if c.env.saveOk = false ∨ canEncode c.ext im2.mode = false then
          ⟨⟨FileData.orig, some FileData.truncated⟩,
            [errLine c.path "save failed"],
            [Event.decode, Event.resize, Event.createTemp] ++ convEvents c.ext imr
              ++ [Event.errorCaught]⟩
        else if c.env.replaceOk = false then
          ⟨⟨FileData.orig, some (FileData.encoded im2 c.ext (saveParamsFor c.ext))⟩,
            [errLine c.path "replace failed"],
            [Event.decode, Event.resize, Event.createTemp] ++ convEvents c.ext imr
              ++ [Event.save, Event.errorCaught]⟩
        else
          ⟨⟨FileData.encoded im2 c.ext (saveParamsFor c.ext), none⟩,
            [],
            [Event.decode, Event.resize, Event.createTemp] ++ convEvents c.ext imr
              ++ [Event.save, Event.replace]⟩

/-- Result of one `main` invocation. -/
structure MainResult where
  exitCode : Nat
  stdoutLines : List String
  stderrLines : List String
  processed : Nat
  fileResults : List TResult
deriving DecidableEq

/-- Final stdout summary line: the count of candidates and the root path. -/
def summaryLine (count : Nat) (root : String) : String :=
  "Processed " ++ toString count ++ " image(s) in " ++ root

/-- Entry point `main` (lines 107-123).  `dirOk` is the conjunction of the
root-exists and is-directory checks;
`cands` is the sequence `walk_images` yields.  On a bad directory: one
stderr line and `sys.exit(1)`.  Otherwise every candidate is fed to the
transformer (which never raises), `count` ends at the number of candidates,
and the summary line is printed with exit status 0. -/
def runMain (dirOk : Bool) (root : String) (cands : List Candidate) : MainResult :=
  if dirOk = false then
    ⟨1, [], ["Not a directory: " ++ root], 0, []⟩
  else
    let rs := cands.map compress_image_50_percent
    ⟨0, [summaryLine cands.length root], (rs.map TResult.stderrLines).flatten,
      cands.length, rs⟩

/-! ### Helper lemmas about the embedded primitives -/

lemma exifTranspose_animated (im : Image) :
    (exifTranspose im).animated = im.animated := by
  unfold exifTranspose; split <;> rfl

lemma exifTranspose_mode (im : Image) :
    (exifTranspose im).mode = im.mode := by
  unfold exifTranspose; split <;> rfl

lemma resizeImage_width (im : Image) (nw nh : Nat) :
    (resizeImage im nw nh).width = nw := rfl

lemma resizeImage_height (im : Image) (nw nh : Nat) :
    (resizeImage im nw nh).height = nh := rfl

lemma resizeImage_mode (im : Image) (nw nh : Nat) :
    (resizeImage im nw nh).mode = im.mode := rfl

lemma jpegAdjust_width (ext : String) (im : Image) :
    (jpegAdjust ext im).width = im.width := by
  unfold jpegAdjust; split <;> rfl

lemma jpegAdjust_height (ext : String) (im : Image) :
    (jpegAdjust ext im).height = im.height := by
  unfold jpegAdjust; split <;> rfl

lemma canEncode_jpegAdjust (ext : String) (im : Image) :
    canEncode ext (jpegAdjust ext im).mode = true := by
  by_cases hj : ext = ".jpg" ∨ ext = ".jpeg"
  · by_cases hm : im.mode = Mode.RGB
    · simp [jpegAdjust, canEncode, hj, hm, jpegCanEncode]
    · simp [jpegAdjust, canEncode, hj, hm, convertRGB, jpegCanEncode]
  · simp [jpegAdjust, canEncode, hj]

lemma convEvents_cases (ext : String) (im : Image) :
    convEvents ext im = [] ∨ convEvents ext im = [Event.convertRGB] := by
  unfold convEvents; split
  · right; rfl
  · left; rfl

lemma errorCaught_notin_convEvents (ext : String) (im : Image) :
    Event.errorCaught ∉ convEvents ext im := by
  rcases convEvents_cases ext im with h | h <;> rw [h] <;> simp

lemma save_notin_convEvents (ext : String) (im : Image) :
    Event.save ∉ convEvents ext im := by
  rcases convEvents_cases ext im with h | h <;> rw [h] <;> simp

lemma replace_notin_convEvents (ext : String) (im : Image) :
    Event.replace ∉ convEvents ext im := by
  rcases convEvents_cases ext im with h | h <;> rw [h] <;> simp

lemma createTemp_notin_convEvents (ext : String) (im : Image) :
    Event.createTemp ∉ convEvents ext im := by
  rcases convEvents_cases ext im with h | h <;> rw [h] <;> simp

/-- Equation `max 1 (w / 2) = w` holds exactly at `w = 1` (given `1 ≤ w`). -/
lemma maxHalf_eq_iff (w : Nat) (hw : 1 ≤ w) :
    max 1 (w / 2) = w ↔ w = 1 := by
  constructor
  · intro h
    rcases Nat.lt_or_ge w 2 with h2 | h2
    · omega
    · have h1 : 1 ≤ w / 2 := by
        have := Nat.div_le_div_right (c := 2) h2
        simpa using this
      have hlt : w / 2 < w := Nat.div_lt_self (by omega) (by omega)
      rw [Nat.max_eq_right h1] at h
      omega
  · intro h; subst h; rfl

lemma sizeKeep_iff (im : Image) (hw : 1 ≤ im.width) (hh : 1 ≤ im.height) :
    sizeKeep im ↔ im.width = 1 ∧ im.height = 1 := by
  unfold sizeKeep
  rw [maxHalf_eq_iff im.width hw, maxHalf_eq_iff im.height hh]

lemma not_sizeKeep_of_big (im : Image) (h : 2 ≤ im.width ∨ 2 ≤ im.height) :
    ¬ sizeKeep im := by
  unfold sizeKeep
  rintro ⟨h1, h2⟩
  rcases h with h | h
  · rw [maxHalf_eq_iff im.width (by omega)] at h1
    omega
  · rw [maxHalf_eq_iff im.height (by omega)] at h2
    omega

/-- With an all-success environment, a non-tiny, non-animated-GIF candidate
takes the full decode / resize / temp / save / replace path. -/
lemma compress_success (c : Candidate)
    (henv : c.env = Env.allOk)
    (hsz : ¬ sizeKeep (exifTranspose c.img))
    (hgif : ¬ (c.ext = ".gif" ∧ (exifTranspose c.img).animated = true)) :
    compress_image_50_percent c =
      ⟨⟨FileData.encoded
          (jpegAdjust c.ext
            (resizeImage (exifTranspose c.img)
              (max 1 ((exifTranspose c.img).width / 2))
              (max 1 ((exifTranspose c.img).height / 2))))
          c.ext (saveParamsFor c.ext), none⟩,
        [],
        [Event.decode, Event.resize, Event.createTemp]
          ++ convEvents c.ext
              (resizeImage (exifTranspose c.img)
                (max 1 ((exifTranspose c.img).width / 2))
                (max 1 ((exifTranspose c.img).height / 2)))
          ++ [Event.save, Event.replace]⟩ := by
  unfold compress_image_50_percent
  rw [henv]
  rw [if_neg (by simp [Env.allOk]), if_neg hsz, if_neg (by simp [Env.allOk]),
    if_neg (by simp [Env.allOk]), if_neg hgif,
    if_neg (by simp [Env.allOk, canEncode_jpegAdjust]),
    if_neg (by simp [Env.allOk])]

lemma jpegAdjust_eq_convert (ext : String) (im : Image)
    (hjpg : ext = ".jpg" ∨ ext = ".jpeg") (hm : ¬ im.mode = Mode.RGB) :
    jpegAdjust ext im = convertRGB im := if_pos ⟨hjpg, hm⟩

lemma convEvents_eq_convert (ext : String) (im : Image)
    (hjpg : ext = ".jpg" ∨ ext = ".jpeg") (hm : ¬ im.mode = Mode.RGB) :
    convEvents ext im = [Event.convertRGB] := if_pos ⟨hjpg, hm⟩

/-! ### Claim theorems -/

/-- C1: for every supported, non-animated image whose width or height
(after `exif_transpose`) is at least 2, a fully successful run replaces the
source file with an encoded image of dimensions exactly
`(max 1 (w / 2), max 1 (h / 2))`, the sizes being taken after orientation
normalization. -/
theorem C1_half_dimensions (c : Candidate)
    (henv : c.env = Env.allOk)
    (_hsupp : c.ext ∈ SUPPORTED_EXTS)
    (hanim : c.img.animated = false)
    (hbig : 2 ≤ (exifTranspose c.img).width ∨ 2 ≤ (exifTranspose c.img).height) :
    ∃ im2 ps, (compress_image_50_percent c).fs.src = FileData.encoded im2 c.ext ps ∧
      im2.width = max 1 ((exifTranspose c.img).width / 2) ∧
      im2.height = max 1 ((exifTranspose c.img).height / 2) := by
  have hgif : ¬ (c.ext = ".gif" ∧ (exifTranspose c.img).animated = true) := by
    rintro ⟨_, ha⟩
    rw [exifTranspose_animated, hanim] at ha
    exact absurd ha (by decide)
  rw [compress_success c henv (not_sizeKeep_of_big _ hbig) hgif]
  refine ⟨_, _, rfl, ?_, ?_⟩
  · rw [jpegAdjust_width, resizeImage_width]
  · rw [jpegAdjust_height, resizeImage_height]

/-- Witness for C1: a 5×4 PNG is replaced by a 2×2 encode. -/
theorem C1_half_dimensions_witness :
    (⟨"a.png", ".png", ⟨5, 4, Mode.RGB, false, 1⟩, Env.allOk⟩ : Candidate).ext
        ∈ SUPPORTED_EXTS ∧
    ∃ im2 ps,
      (compress_image_50_percent
          ⟨"a.png", ".png", ⟨5, 4, Mode.RGB, false, 1⟩, Env.allOk⟩).fs.src
        = FileData.encoded im2 ".png" ps ∧
      im2.width = max 1 ((exifTranspose ⟨5, 4, Mode.RGB, false, 1⟩).width / 2) ∧
      im2.height = max 1 ((exifTranspose ⟨5, 4, Mode.RGB, false, 1⟩).height / 2) :=
  ⟨by decide,
    C1_half_dimensions ⟨"a.png", ".png", ⟨5, 4, Mode.RGB, false, 1⟩, Env.allOk⟩
      rfl (by decide) rfl (by decide)⟩

/-- C8: a JPEG-extension file whose (resized) buffer mode is not RGB is
converted to RGB before encoding; the save succeeds and the file ends up as
an RGB-mode encode. -/
theorem C8_jpeg_rgb (c : Candidate)
    (henv : c.env = Env.allOk)
    (hjpg : c.ext = ".jpg" ∨ c.ext = ".jpeg")
    (hmode : ¬ c.img.mode = Mode.RGB)
    (hbig : 2 ≤ (exifTranspose c.img).width ∨ 2 ≤ (exifTranspose c.img).height) :
    ∃ im2 ps, (compress_image_50_percent c).fs.src = FileData.encoded im2 c.ext ps ∧
      im2.mode = Mode.RGB ∧
      Event.convertRGB ∈ (compress_image_50_percent c).trace ∧
      Event.save ∈ (compress_image_50_percent c).trace ∧
      Event.errorCaught ∉ (compress_image_50_percent c).trace := by
  have hgif : ¬ (c.ext = ".gif" ∧ (exifTranspose c.img).animated = true) := by
    rintro ⟨hg, _⟩
    rcases hjpg with h | h <;> rw [h] at hg <;> exact absurd hg (by decide)
  have hmode' : ¬ (resizeImage (exifTranspose c.img)
      (max 1 ((exifTranspose c.img).width / 2))
      (max 1 ((exifTranspose c.img).height / 2))).mode = Mode.RGB := by
    rw [resizeImage_mode, exifTranspose_mode]; exact hmode
  rw [compress_success c henv (not_sizeKeep_of_big _ hbig) hgif,
    jpegAdjust_eq_convert _ _ hjpg hmode', convEvents_eq_convert _ _ hjpg hmode']
  exact ⟨_, _, rfl, rfl, by simp, by simp, by simp⟩

/-- Witness for C8: a 4×4 RGBA JPG is saved as an RGB-mode encode. -/
theorem C8_jpeg_rgb_witness :
    (¬ (⟨4, 4, Mode.RGBA, false, 1⟩ : Image).mode = Mode.RGB) ∧
    ∃ im2 ps,
      (compress_image_50_percent
          ⟨"b.jpg", ".jpg", ⟨4, 4, Mode.RGBA, false, 1⟩, Env.allOk⟩).fs.src
        = FileData.encoded im2 ".jpg" ps ∧
      im2.mode = Mode.RGB ∧
      Event.convertRGB ∈ (compress_image_50_percent
          ⟨"b.jpg", ".jpg", ⟨4, 4, Mode.RGBA, false, 1⟩, Env.allOk⟩).trace ∧
      Event.save ∈ (compress_image_50_percent
          ⟨"b.jpg", ".jpg", ⟨4, 4, Mode.RGBA, false, 1⟩, Env.allOk⟩).trace ∧
      Event.errorCaught ∉ (compress_image_50_percent
          ⟨"b.jpg", ".jpg", ⟨4, 4, Mode.RGBA, false, 1⟩, Env.allOk⟩).trace :=
  ⟨by decide,
    C8_jpeg_rgb ⟨"b.jpg", ".jpg", ⟨4, 4, Mode.RGBA, false, 1⟩, Env.allOk⟩
      rfl (Or.inl rfl) (by decide) (by decide)⟩

/-- C2: after the transformer finishes with a file, the source path holds
either the untouched original bytes or a complete successful encode promoted
by the rename; whenever the `except` clause fired, the source is untouched.
In particular the source is never the empty temp placeholder or a truncated
write. -/
theorem C2_atomic_replace (c : Candidate) :
    ((compress_image_50_percent c).fs.src = FileData.orig ∨
      ∃ im2 ps,
        (compress_image_50_percent c).fs.src = FileData.encoded im2 c.ext ps ∧
        Event.save ∈ (compress_image_50_percent c).trace ∧
        Event.replace ∈ (compress_image_50_percent c).trace) ∧
    (Event.errorCaught ∈ (compress_image_50_percent c).trace →
      (compress_image_50_percent c).fs.src = FileData.orig) ∧
    (compress_image_50_percent c).fs.src ≠ FileData.empty ∧
    (compress_image_50_percent c).fs.src ≠ FileData.truncated := by
  simp only [compress_image_50_percent]
  split_ifs <;>
    first
      | exact ⟨Or.inl rfl, fun _ => rfl, by simp [initFS], by simp [initFS]⟩
      | exact ⟨Or.inr ⟨_, _, rfl, by simp, by simp⟩,
          fun hmem => absurd hmem (by simp [errorCaught_notin_convEvents]),
          by simp, by simp⟩

/-- Witness for C2: with a failing `save`, the except clause fires and the
original bytes stay at the source path. -/
theorem C2_atomic_replace_witness :
    Event.errorCaught ∈
      (compress_image_50_percent ⟨"c.png", ".png", ⟨4, 4, Mode.RGB, false, 1⟩,
        ⟨true, true, true, true, false, true⟩⟩).trace ∧
    (compress_image_50_percent ⟨"c.png", ".png", ⟨4, 4, Mode.RGB, false, 1⟩,
        ⟨true, true, true, true, false, true⟩⟩).fs.src = FileData.orig :=
  ⟨by decide,
    (C2_atomic_replace ⟨"c.png", ".png", ⟨4, 4, Mode.RGB, false, 1⟩,
        ⟨true, true, true, true, false, true⟩⟩).2.1 (by decide)⟩

/-- Every error leaf of the transformer emits exactly one stderr line and it
names the source path. -/
lemma errorCaught_stderr (c : Candidate)
    (h : Event.errorCaught ∈ (compress_image_50_percent c).trace) :
    ∃ m, (compress_image_50_percent c).stderrLines = [errLine c.path m] := by
  simp only [compress_image_50_percent] at h ⊢
  split_ifs at h ⊢ <;>
    first
      | exact ⟨_, rfl⟩
      | exact absurd h (by simp [errorCaught_notin_convEvents])

/-- C3: with a valid root, the run visits every candidate (the transformer
is total, so no per-file error aborts the walk), the final count equals the
number of candidates, the exit status is 0 regardless of per-file failures,
and any candidate whose processing hit the except clause got exactly one
stderr diagnostic naming its path. -/
theorem C3_no_abort (root : String) (cands : List Candidate) :
    (runMain true root cands).exitCode = 0 ∧
    (runMain true root cands).processed = cands.length ∧
    (runMain true root cands).fileResults = cands.map compress_image_50_percent ∧
    ∀ c : Candidate, Event.errorCaught ∈ (compress_image_50_percent c).trace →
      ∃ m, (compress_image_50_percent c).stderrLines = [errLine c.path m] :=
  ⟨by simp [runMain], by simp [runMain], by simp [runMain],
    fun c h => errorCaught_stderr c h⟩

/-- Witness for C3: a run over one undecodable file still exits 0, counts
it, and that file got its single diagnostic line. -/
theorem C3_no_abort_witness :
    (runMain true "d" [⟨"p.bmp", ".bmp", ⟨4, 4, Mode.RGB, false, 1⟩,
        ⟨false, true, true, true, true, true⟩⟩]).exitCode = 0 ∧
    (runMain true "d" [⟨"p.bmp", ".bmp", ⟨4, 4, Mode.RGB, false, 1⟩,
        ⟨false, true, true, true, true, true⟩⟩]).processed = 1 ∧
    ∃ m, (compress_image_50_percent ⟨"p.bmp", ".bmp", ⟨4, 4, Mode.RGB, false, 1⟩,
        ⟨false, true, true, true, true, true⟩⟩).stderrLines = [errLine "p.bmp" m] :=
  ⟨(C3_no_abort "d" _).1, (C3_no_abort "d" _).2.1,
    (C3_no_abort "d" [⟨"p.bmp", ".bmp", ⟨4, 4, Mode.RGB, false, 1⟩,
        ⟨false, true, true, true, true, true⟩⟩]).2.2.2
      ⟨"p.bmp", ".bmp", ⟨4, 4, Mode.RGB, false, 1⟩,
        ⟨false, true, true, true, true, true⟩⟩ (by decide)⟩

/-- C9: the process exits 1 exactly when the resolved directory is invalid
(then: one stderr message, nothing on stdout, zero files processed);
otherwise it exits 0 and stdout is the single summary line reporting the
number of candidates attempted and the resolved root. -/
theorem C9_exit_codes (dirOk : Bool) (root : String) (cands : List Candidate) :
    ((runMain dirOk root cands).exitCode = 1 ↔ dirOk = false) ∧
    (runMain dirOk root cands).exitCode = (if dirOk then 0 else 1) ∧
    (runMain dirOk root cands).processed = (if dirOk then cands.length else 0) ∧
    (runMain dirOk root cands).stdoutLines =
      (if dirOk then [summaryLine cands.length root] else []) ∧
    (runMain dirOk root cands).stderrLines =
      (if dirOk then
        ((cands.map compress_image_50_percent).map TResult.stderrLines).flatten
      else ["Not a directory: " ++ root]) := by
  cases dirOk <;> simp [runMain]

/-- C4: a GIF whose (decoded, transposed) image is animated and which
reaches the guard (decode, resize, temp creation succeed; not the 1×1
silent-skip case) is skipped: the source file is untouched, the temp
placeholder is removed (its unlink succeeding), the single stderr line is
the "Skipping animated GIF" diagnostic naming the file, and nothing is
saved or renamed. -/
theorem C4_animated_gif_skip (c : Candidate)
    (hd : c.env.decodeOk = true) (hr : c.env.resizeOk = true)
    (hm : c.env.mktempOk = true) (hu : c.env.unlinkOk = true)
    (hext : c.ext = ".gif") (hanim : c.img.animated = true)
    (hns : ¬ sizeKeep (exifTranspose c.img)) :
    (compress_image_50_percent c).fs = initFS ∧
    (compress_image_50_percent c).stderrLines = [skipLine c.path] ∧
    Event.save ∉ (compress_image_50_percent c).trace ∧
    Event.replace ∉ (compress_image_50_percent c).trace := by
  have hanim' : (exifTranspose c.img).animated = true := by
    rw [exifTranspose_animated]; exact hanim
  simp only [compress_image_50_percent]
  rw [if_neg (by simp [hd]), if_neg hns, if_neg (by simp [hr]),
    if_neg (by simp [hm]), if_pos ⟨hext, hanim'⟩, hu]
  exact ⟨rfl, rfl, by simp, by simp⟩

/-- Witness for C4: a 4×4 animated GIF is skipped with the diagnostic. -/
theorem C4_animated_gif_skip_witness :
    (compress_image_50_percent
        ⟨"anim.gif", ".gif", ⟨4, 4, Mode.P, true, 1⟩, Env.allOk⟩).fs = initFS ∧
    (compress_image_50_percent
        ⟨"anim.gif", ".gif", ⟨4, 4, Mode.P, true, 1⟩, Env.allOk⟩).stderrLines
      = [skipLine "anim.gif"] ∧
    Event.save ∉ (compress_image_50_percent
        ⟨"anim.gif", ".gif", ⟨4, 4, Mode.P, true, 1⟩, Env.allOk⟩).trace ∧
    Event.replace ∉ (compress_image_50_percent
        ⟨"anim.gif", ".gif", ⟨4, 4, Mode.P, true, 1⟩, Env.allOk⟩).trace :=
  C4_animated_gif_skip ⟨"anim.gif", ".gif", ⟨4, 4, Mode.P, true, 1⟩, Env.allOk⟩
    rfl rfl rfl rfl rfl rfl (by decide)

/-- C5: for a decodable image, the transformer is a complete no-op (source
untouched, no stderr, no temp file ever created) exactly when
`new_w == w and new_h == h`; and for real images (both dimensions ≥ 1) that
condition holds exactly at 1×1 — not for every image at or below 2px in
both dimensions. -/
theorem C5_tiny_skip (c : Candidate)
    (hd : c.env.decodeOk = true)
    (hw : 1 ≤ (exifTranspose c.img).width)
    (hh : 1 ≤ (exifTranspose c.img).height) :
    (((compress_image_50_percent c).fs = initFS ∧
      (compress_image_50_percent c).stderrLines = [] ∧
      Event.createTemp ∉ (compress_image_50_percent c).trace) ↔
      sizeKeep (exifTranspose c.img)) ∧
    (sizeKeep (exifTranspose c.img) ↔
      ((exifTranspose c.img).width = 1 ∧ (exifTranspose c.img).height = 1)) := by
  refine ⟨⟨?_, ?_⟩, sizeKeep_iff _ hw hh⟩
  · intro hsil
    by_contra hns
    simp only [compress_image_50_percent] at hsil
    rw [if_neg (by simp [hd]), if_neg hns] at hsil
    split_ifs at hsil <;> simp [initFS] at hsil
  · intro hsk
    simp only [compress_image_50_percent]
    rw [if_neg (by simp [hd]), if_pos hsk]
    exact ⟨rfl, rfl, by simp⟩

/-- Witness for C5: a 1×1 PNG is silently skipped, and the skip condition
evaluates as the theorem states. -/
theorem C5_tiny_skip_witness :
    ((compress_image_50_percent
        ⟨"t.png", ".png", ⟨1, 1, Mode.RGB, false, 1⟩, Env.allOk⟩).fs = initFS ∧
      (compress_image_50_percent
        ⟨"t.png", ".png", ⟨1, 1, Mode.RGB, false, 1⟩, Env.allOk⟩).stderrLines = [] ∧
      Event.createTemp ∉ (compress_image_50_percent
        ⟨"t.png", ".png", ⟨1, 1, Mode.RGB, false, 1⟩, Env.allOk⟩).trace) :=
  ((C5_tiny_skip ⟨"t.png", ".png", ⟨1, 1, Mode.RGB, false, 1⟩, Env.allOk⟩
      rfl (by decide) (by decide)).1).mpr (by decide)

/-- C10: when the animated-GIF skip path's unlink of the placeholder fails,
the failure is swallowed: the skip still completes normally with exactly the
one "Skipping animated GIF" diagnostic, no error reaches the except clause,
the source is untouched — and the empty placeholder temp file remains. -/
theorem C10_unlink_swallowed (c : Candidate)
    (hd : c.env.decodeOk = true) (hr : c.env.resizeOk = true)
    (hm : c.env.mktempOk = true) (hu : c.env.unlinkOk = false)
    (hext : c.ext = ".gif") (hanim : c.img.animated = true)
    (hns : ¬ sizeKeep (exifTranspose c.img)) :
    (compress_image_50_percent c).fs.src = FileData.orig ∧
    (compress_image_50_percent c).fs.tmp = some FileData.empty ∧
    (compress_image_50_percent c).stderrLines = [skipLine c.path] ∧
    Event.errorCaught ∉ (compress_image_50_percent c).trace := by
  have hanim' : (exifTranspose c.img).animated = true := by
    rw [exifTranspose_animated]; exact hanim
  simp only [compress_image_50_percent]
  rw [if_neg (by simp [hd]), if_neg hns, if_neg (by simp [hr]),
    if_neg (by simp [hm]), if_pos ⟨hext, hanim'⟩, hu]
  exact ⟨rfl, rfl, rfl, by simp⟩

/-- Witness for C10: failing unlink leaves the placeholder behind while the
skip completes with its single diagnostic. -/
theorem C10_unlink_swallowed_witness :
    (compress_image_50_percent ⟨"anim2.gif", ".gif", ⟨6, 3, Mode.P, true, 1⟩,
        ⟨true, true, true, false, true, true⟩⟩).fs.src = FileData.orig ∧
    (compress_image_50_percent ⟨"anim2.gif", ".gif", ⟨6, 3, Mode.P, true, 1⟩,
        ⟨true, true, true, false, true, true⟩⟩).fs.tmp = some FileData.empty ∧
    (compress_image_50_percent ⟨"anim2.gif", ".gif", ⟨6, 3, Mode.P, true, 1⟩,
        ⟨true, true, true, false, true, true⟩⟩).stderrLines = [skipLine "anim2.gif"] ∧
    Event.errorCaught ∉ (compress_image_50_percent
        ⟨"anim2.gif", ".gif", ⟨6, 3, Mode.P, true, 1⟩,
          ⟨true, true, true, false, true, true⟩⟩).trace :=
  C10_unlink_swallowed ⟨"anim2.gif", ".gif", ⟨6, 3, Mode.P, true, 1⟩,
      ⟨true, true, true, false, true, true⟩⟩
    rfl rfl rfl rfl rfl rfl (by decide)

/-- Refutes C6 as stated: when `im_resized.save` raises, the except clause
prints the diagnostic but removes nothing, so after the transformer finishes
with this file a (truncated) temp file still sits in the source
directory. -/
theorem C6_counterexample :
    (compress_image_50_percent ⟨"d.png", ".png", ⟨4, 4, Mode.RGB, false, 1⟩,
        ⟨true, true, true, true, false, true⟩⟩).fs.tmp = some FileData.truncated ∧
    Event.errorCaught ∈
      (compress_image_50_percent ⟨"d.png", ".png", ⟨4, 4, Mode.RGB, false, 1⟩,
        ⟨true, true, true, true, false, true⟩⟩).trace ∧
    ¬ (compress_image_50_percent ⟨"d.png", ".png", ⟨4, 4, Mode.RGB, false, 1⟩,
        ⟨true, true, true, true, false, true⟩⟩).fs.tmp = none := by
  decide

/-- C6 (amended): on every path on which no exception was caught — success,
tiny-skip, and the animated-GIF skip with its unlink succeeding — no temp
file remains; the cleanup guarantee does not extend to the exception paths
(failed encode or rename leaves the temp file behind). -/
theorem C6_temp_cleanup_amended (c : Candidate)
    (hu : c.env.unlinkOk = true)
    (hno : Event.errorCaught ∉ (compress_image_50_percent c).trace) :
    (compress_image_50_percent c).fs.tmp = none := by
  simp only [compress_image_50_percent] at hno ⊢
  split_ifs at hno ⊢ <;>
    first
      | rfl
      | · rw [hu]
      | exact absurd (by simp [errorCaught_notin_convEvents]) hno

/-- Witness for the amended C6: a fully successful run leaves no temp
file. -/
theorem C6_temp_cleanup_amended_witness :
    (compress_image_50_percent
        ⟨"e.webp", ".webp", ⟨9, 7, Mode.RGB, false, 1⟩, Env.allOk⟩).fs.tmp = none :=
  C6_temp_cleanup_amended
    ⟨"e.webp", ".webp", ⟨9, 7, Mode.RGB, false, 1⟩, Env.allOk⟩ rfl (by decide)

/-- Refutes C7 as stated: on an animated GIF the code resizes (line 44) and
creates the temp placeholder (line 48) before the animation check
(line 72) aborts the file, so a resize does happen before the guard. -/
theorem C7_counterexample :
    Event.resize ∈
      (compress_image_50_percent
        ⟨"f.gif", ".gif", ⟨4, 4, Mode.P, true, 1⟩, Env.allOk⟩).trace ∧
    (compress_image_50_percent
        ⟨"f.gif", ".gif", ⟨4, 4, Mode.P, true, 1⟩, Env.allOk⟩).trace =
      [Event.decode, Event.resize, Event.createTemp, Event.animSkip] := by
  decide

/-- C7 (amended): the animated-GIF guard runs after the resize and after
temp-file creation but before mode conversion, encode, and replace: an
animated GIF that reaches the guard has been resized in memory and has an
empty placeholder temp file, yet nothing is encoded or renamed and the
source file is untouched. -/
theorem C7_guard_order_amended (c : Candidate)
    (hd : c.env.decodeOk = true) (hr : c.env.resizeOk = true)
    (hm : c.env.mktempOk = true)
    (hext : c.ext = ".gif") (hanim : c.img.animated = true)
    (hns : ¬ sizeKeep (exifTranspose c.img)) :
    (compress_image_50_percent c).trace =
      [Event.decode, Event.resize, Event.createTemp, Event.animSkip] ∧
    Event.save ∉ (compress_image_50_percent c).trace ∧
    Event.replace ∉ (compress_image_50_percent c).trace ∧
    Event.convertRGB ∉ (compress_image_50_percent c).trace ∧
    (compress_image_50_percent c).fs.src = FileData.orig := by
  have hanim' : (exifTranspose c.img).animated = true := by
    rw [exifTranspose_animated]; exact hanim
  simp only [compress_image_50_percent]
  rw [if_neg (by simp [hd]), if_neg hns, if_neg (by simp [hr]),
    if_neg (by simp [hm]), if_pos ⟨hext, hanim'⟩]
  exact ⟨rfl, by simp, by simp, by simp, rfl⟩

/-- Witness for the amended C7: a 4×5 animated GIF shows the resize-then-
guard trace with nothing saved. -/
theorem C7_guard_order_amended_witness :
    (compress_image_50_percent
        ⟨"g.gif", ".gif", ⟨4, 5, Mode.P, true, 1⟩, Env.allOk⟩).trace =
      [Event.decode, Event.resize, Event.createTemp, Event.animSkip] ∧
    Event.save ∉ (compress_image_50_percent
        ⟨"g.gif", ".gif", ⟨4, 5, Mode.P, true, 1⟩, Env.allOk⟩).trace ∧
    Event.replace ∉ (compress_image_50_percent
        ⟨"g.gif", ".gif", ⟨4, 5, Mode.P, true, 1⟩, Env.allOk⟩).trace ∧
    Event.convertRGB ∉ (compress_image_50_percent
        ⟨"g.gif", ".gif", ⟨4, 5, Mode.P, true, 1⟩, Env.allOk⟩).trace ∧
    (compress_image_50_percent
        ⟨"g.gif", ".gif", ⟨4, 5, Mode.P, true, 1⟩, Env.allOk⟩).fs.src =
      FileData.orig :=
  C7_guard_order_amended ⟨"g.gif", ".gif", ⟨4, 5, Mode.P, true, 1⟩, Env.allOk⟩
    rfl rfl rfl rfl rfl (by decide)

end CompressImages
